import Mathlib

/-
  Verification development for the TypeScriptCompilerAction of the
  kist-action-typescript repository.

  The source under verification is the class TypeScriptCompilerAction
  (methods execute, loadAndParseTsConfig, describe).  The repository file
  holds two revisions of the class; the embedding below follows the
  documented revision, the one whose diagnostic failure aggregates the
  flattened diagnostic texts into the thrown message.

  The external compiler engine (the typescript module: readConfigFile,
  parseJsonConfigFileContent, convertCompilerOptionsFromJson,
  createProgram, program.emit, getPreEmitDiagnostics,
  flattenDiagnosticMessageText) and the path module (resolve, dirname)
  are out of scope and are modelled as an abstract Engine record of
  functions, exactly the interface the action consumes.  Compiler option
  bags (plain JavaScript objects) are modelled as association lists with
  pairwise distinct keys, looked up by first match and updated in place,
  which is the own-property semantics of object spread and assignment.
-/

set_option autoImplicit false

namespace KistTs

/-- A compiler option value: scalar JSON-like values as they occur in
compiler option bags. -/
inductive OptVal where
  | str (s : String)
  | boolean (b : Bool)
  | num (n : Int)
deriving DecidableEq, Repr

/-- A compiler option bag: a JavaScript object, keys in insertion order. -/
abbrev OptionsMap := List (String × OptVal)

/-- Property lookup on an object: first binding with the key wins
(JavaScript objects hold each key at most once). -/
def getKey : OptionsMap → String → Option OptVal
  | [], _ => none
  | p :: rest, k => if p.1 = k then some p.2 else getKey rest k

/-- Property assignment `m.k = v`: replace the binding in place when the
key is present, append it otherwise. -/
def setKey : OptionsMap → String → OptVal → OptionsMap
  | [], k, v => [(k, v)]
  | p :: rest, k, v => if p.1 = k then (k, v) :: rest else p :: setKey rest k v

/-- The object spread `\x7b...a, ...b\x7d`: start from `a` and assign every
binding of `b` in order. -/
def objectSpread (a b : OptionsMap) : OptionsMap :=
  b.foldl (fun m p => setKey m p.1 p.2) a

/-- One compiler diagnostic, reduced to the payload the action consumes:
its structured message, exposed to the orchestrator only through the
engine flattening function. -/
structure Diag where
  messageText : String
deriving DecidableEq, Repr

/-- Result of ts.parseJsonConfigFileContent: resolved options, resolved
input file names, and validation error diagnostics. -/
structure ParsedCommandLine where
  options : OptionsMap
  fileNames : List String
  errors : List Diag
deriving DecidableEq, Repr

/-- Result of ts.convertCompilerOptionsFromJson: converted options plus
the error diagnostics for keys or values the option grammar rejects. -/
structure ConvertResult where
  options : OptionsMap
  errors : List Diag
deriving DecidableEq, Repr

/-- Result of program.emit(): emission diagnostics, plus the output
artifacts the engine wrote to disk while emitting. -/
structure EmitResult where
  diagnostics : List Diag
  artifacts : List String
deriving DecidableEq, Repr

/-- Behaviour of a constructed ts.Program: the pre-emit diagnostics
ts.getPreEmitDiagnostics reports, and the emit outcome. -/
structure ProgramModel where
  preEmitDiagnostics : List Diag
  emitResult : EmitResult
deriving DecidableEq, Repr

/-- The external compiler engine and path module, as the interface the
action consumes.  readConfigFile yields either the error diagnostic of a
failed read or the raw parsed configuration (opaque to the action). -/
structure Engine where
  resolvePath : String → String
  dirname : String → String
  readConfigFile : String → Except Diag String
  parseJsonConfigFileContent : String → String → ParsedCommandLine
  convertCompilerOptionsFromJson : List (String × OptVal) → String → ConvertResult
  createProgram : List String → OptionsMap → ProgramModel
  flattenDiagnosticMessageText : Diag → String

/-- The options record accepted by TypeScriptCompilerAction.execute. -/
structure TypeScriptCompilerActionOptions where
  tsconfigPath : Option String
  filePaths : Option (List String)
  outputDir : Option String
  compilerOptions : Option (List (String × OptVal))
deriving DecidableEq, Repr

/-- Observable events of one invocation: the two logging channels of the
host framework (logInfo, logError with one or with two arguments) and
the engine calls that construct the compilation unit and emit. -/
inductive Event where
  | info (msg : String)
  | logError (msg : String)
  | logErrorCause (msg : String) (cause : String)
  | createProgram (rootNames : List String) (options : OptionsMap)
  | emit (artifacts : List String)
deriving DecidableEq, Repr

/-- `path.resolve(tsconfigPath)` with the destructuring default
`tsconfigPath = "tsconfig.json"`. -/
def resolvedPathOf (eng : Engine) (o : TypeScriptCompilerActionOptions) : String :=
  eng.resolvePath (o.tsconfigPath.getD "tsconfig.json")

/-- The private method loadAndParseTsConfig: read the config file,
fail on a read error, parse its content relative to its directory, fail
when the parse reports errors (each flattened, joined by newline). -/
def loadAndParseTsConfig (eng : Engine) (tsconfigPath : String) :
    Except String ParsedCommandLine :=
  match eng.readConfigFile tsconfigPath with
  | Except.error d =>
      Except.error ("Error reading tsconfig.json: " ++ eng.flattenDiagnosticMessageText d)
  | Except.ok config =>
      let parsedConfig := eng.parseJsonConfigFileContent config (eng.dirname tsconfigPath)
      if parsedConfig.errors.length > 0 then
        Except.error ("Error parsing tsconfig.json: " ++
          String.intercalate "\n" (parsedConfig.errors.map eng.flattenDiagnosticMessageText))
      else
        Except.ok parsedConfig

/-- The option merge of execute: spread the parsed options, spread the
converted override options over them, then, when outputDir is supplied
and truthy (a non-empty string), assign it to outDir. -/
def mergeEffective (base overrideOptions : OptionsMap) (outputDir : Option String) :
    OptionsMap :=
  match outputDir with
  | some d =>
      if d = "" then objectSpread base overrideOptions
      else setKey (objectSpread base overrideOptions) "outDir" (OptVal.str d)
  | none => objectSpread base overrideOptions

/-- The final compiler options execute hands to createProgram: parsed
base options, overlaid with the .options field (the .errors field is
never consulted) of convertCompilerOptionsFromJson applied to the
caller overrides (defaulted to the empty bag), then the outputDir rule. -/
def finalOptionsOf (eng : Engine) (o : TypeScriptCompilerActionOptions)
    (parsedConfig : ParsedCommandLine) : OptionsMap :=
  mergeEffective parsedConfig.options
    ((eng.convertCompilerOptionsFromJson (o.compilerOptions.getD [])
        (eng.dirname (resolvedPathOf eng o))).options)
    o.outputDir

/-- The root names execute hands to createProgram:
`filePaths ?? parsedConfig.fileNames`. -/
def rootNamesOf (o : TypeScriptCompilerActionOptions)
    (parsedConfig : ParsedCommandLine) : List String :=
  o.filePaths.getD parsedConfig.fileNames

/-- The program execute constructs. -/
def programOf (eng : Engine) (o : TypeScriptCompilerActionOptions)
    (parsedConfig : ParsedCommandLine) : ProgramModel :=
  eng.createProgram (rootNamesOf o parsedConfig) (finalOptionsOf eng o parsedConfig)

/-- `allDiagnostics`: pre-emit diagnostics concatenated with the emit
diagnostics, in that order. -/
def allDiagnosticsOf (eng : Engine) (o : TypeScriptCompilerActionOptions)
    (parsedConfig : ParsedCommandLine) : List Diag :=
  (programOf eng o parsedConfig).preEmitDiagnostics ++
    (programOf eng o parsedConfig).emitResult.diagnostics

/-- `diagnosticMessages`: every diagnostic flattened, joined with a
single newline. -/
def diagnosticMessagesOf (eng : Engine) (o : TypeScriptCompilerActionOptions)
    (parsedConfig : ParsedCommandLine) : String :=
  String.intercalate "\n"
    ((allDiagnosticsOf eng o parsedConfig).map eng.flattenDiagnosticMessageText)

/-- The body of the try block of execute: load and parse the config,
merge options, construct the program, emit, collect diagnostics; yield
the events it emits and either success or the thrown message. -/
def tryBody (eng : Engine) (o : TypeScriptCompilerActionOptions) :
    List Event × Except String Unit :=
  match loadAndParseTsConfig eng (resolvedPathOf eng o) with
  | Except.error msg => ([], Except.error msg)
  | Except.ok parsedConfig =>
      if (allDiagnosticsOf eng o parsedConfig).length > 0 then
        ([Event.createProgram (rootNamesOf o parsedConfig) (finalOptionsOf eng o parsedConfig),
          Event.emit (programOf eng o parsedConfig).emitResult.artifacts] ++
            (allDiagnosticsOf eng o parsedConfig).map
              (fun d => Event.logError ("TypeScript Error: " ++ eng.flattenDiagnosticMessageText d)),
         Except.error ("TypeScript compilation failed: " ++ diagnosticMessagesOf eng o parsedConfig))
      else
        ([Event.createProgram (rootNamesOf o parsedConfig) (finalOptionsOf eng o parsedConfig),
          Event.emit (programOf eng o parsedConfig).emitResult.artifacts,
          Event.info "TypeScript compilation completed successfully."],
         Except.ok ())

/-- The opening logInfo of every invocation. -/
def startEventOf (eng : Engine) (o : TypeScriptCompilerActionOptions) : Event :=
  Event.info ("Compiling TypeScript using configuration: " ++ resolvedPathOf eng o)

/-- TypeScriptCompilerAction.execute: the opening logInfo, the try
block, and the catch block that logs the caught error and rethrows it
under the "TypeScript compilation failed: " prefix.  Returns the event
trace and the settled promise. -/
def execute (eng : Engine) (o : TypeScriptCompilerActionOptions) :
    List Event × Except String Unit :=
  match tryBody eng o with
  | (evs, Except.ok ()) => (startEventOf eng o :: evs, Except.ok ())
  | (evs, Except.error msg) =>
      (startEventOf eng o :: evs ++ [Event.logErrorCause "Error during TypeScript compilation:" msg],
       Except.error ("TypeScript compilation failed: " ++ msg))

/-- TypeScriptCompilerAction.describe. -/
def describeAction : String :=
  "Compiles TypeScript files using a given tsconfig.json configuration."

/-- First createProgram call recorded in a trace, with its arguments. -/
def programCall : List Event → Option (List String × OptionsMap)
  | [] => none
  | Event.createProgram ns opts :: _ => some (ns, opts)
  | _ :: es => programCall es

/-- Options of the first createProgram call recorded in a trace. -/
def programOptions (es : List Event) : Option OptionsMap :=
  (programCall es).map Prod.snd

/-- The error message of a rejected run, none on success. -/
def errMsg? : Except String Unit → Option String
  | Except.error m => some m
  | Except.ok _ => none

/-- Recognise an informational log event. -/
def isInfoEvent : Event → Bool
  | Event.info _ => true
  | _ => false

/-- Recognise a one-argument logError event (the per-diagnostic calls). -/
def isLogErrorEvent : Event → Bool
  | Event.logError _ => true
  | _ => false

/-- Recognise the two-argument logError event of the catch block. -/
def isLogErrorCauseEvent : Event → Bool
  | Event.logErrorCause _ _ => true
  | _ => false

/-- Recognise an emit event. -/
def isEmitEvent : Event → Bool
  | Event.emit _ => true
  | _ => false

/-- Assigning a key and reading it back yields the assigned value. -/
theorem getKey_setKey_self (m : OptionsMap) (k : String) (v : OptVal) :
    getKey (setKey m k v) k = some v := by
  induction m with
  | nil => simp [setKey, getKey]
  | cons p rest ih =>
      by_cases hp : p.1 = k
      · simp [setKey, getKey, hp]
      · simp [setKey, getKey, hp, ih]

/-- Assigning a key leaves every other key unchanged. -/
theorem getKey_setKey_ne (m : OptionsMap) (k : String) (v : OptVal) (q : String)
    (h : q ≠ k) : getKey (setKey m k v) q = getKey m q := by
  induction m with
  | nil => simp [setKey, getKey, Ne.symm h]
  | cons p rest ih =>
      by_cases hp : p.1 = k
      · simp [setKey, getKey, hp, Ne.symm h]
      · simp [setKey, getKey, hp, ih]

/-- A key absent from a bag reads as none. -/
theorem getKey_eq_none_of_not_mem (m : OptionsMap) (k : String)
    (h : k ∉ m.map Prod.fst) : getKey m k = none := by
  induction m with
  | nil => rfl
  | cons p rest ih =>
      simp only [List.map_cons, List.mem_cons] at h
      push_neg at h
      simp [getKey, Ne.symm h.1, ih h.2]

/-- Spreading the empty bag is the identity. -/
theorem objectSpread_nil (a : OptionsMap) : objectSpread a [] = a := rfl

/-- Unfolding one step of the spread. -/
theorem objectSpread_cons (a : OptionsMap) (p : String × OptVal) (rest : OptionsMap) :
    objectSpread a (p :: rest) = objectSpread (setKey a p.1 p.2) rest := rfl

/-- Keys absent from the spread bag read from the base. -/
theorem getKey_objectSpread_of_none (a b : OptionsMap) (k : String)
    (h : getKey b k = none) : getKey (objectSpread a b) k = getKey a k := by
  induction b generalizing a with
  | nil => rfl
  | cons p rest ih =>
      rw [objectSpread_cons]
      by_cases hp : p.1 = k
      · simp [getKey, hp] at h
      · simp only [getKey, hp, if_false] at h
        rw [ih (setKey a p.1 p.2) h, getKey_setKey_ne _ _ _ _ (fun hh => hp hh.symm)]

/-- Keys of the spread bag win in the spread: the override value is the
value of the result. -/
theorem getKey_objectSpread_right (a b : OptionsMap) (k : String) (v : OptVal)
    (hnd : (b.map Prod.fst).Nodup) (h : getKey b k = some v) :
    getKey (objectSpread a b) k = some v := by
  induction b generalizing a with
  | nil => simp [getKey] at h
  | cons p rest ih =>
      rw [objectSpread_cons]
      simp only [List.map_cons, List.nodup_cons] at hnd
      by_cases hp : p.1 = k
      · simp only [getKey, hp, if_true] at h
        have hrest : getKey rest k = none := by
          apply getKey_eq_none_of_not_mem
          rw [← hp]
          exact hnd.1
        rw [getKey_objectSpread_of_none _ _ _ hrest, hp, getKey_setKey_self, h]
      · simp only [getKey, hp, if_false] at h
        exact ih (setKey a p.1 p.2) hnd.2 h

/-- Reduction of tryBody when the configuration loads and the run has no
diagnostics. -/
theorem tryBody_ok_of_no_diags (eng : Engine) (o : TypeScriptCompilerActionOptions)
    (parsedConfig : ParsedCommandLine)
    (hload : loadAndParseTsConfig eng (resolvedPathOf eng o) = Except.ok parsedConfig)
    (hd : allDiagnosticsOf eng o parsedConfig = []) :
    tryBody eng o =
      ([Event.createProgram (rootNamesOf o parsedConfig) (finalOptionsOf eng o parsedConfig),
        Event.emit (programOf eng o parsedConfig).emitResult.artifacts,
        Event.info "TypeScript compilation completed successfully."],
       Except.ok ()) := by
  unfold tryBody
  rw [hload]
  simp [hd]

/-- Reduction of tryBody when the configuration loads and the run has at
least one diagnostic. -/
theorem tryBody_error_of_diags (eng : Engine) (o : TypeScriptCompilerActionOptions)
    (parsedConfig : ParsedCommandLine)
    (hload : loadAndParseTsConfig eng (resolvedPathOf eng o) = Except.ok parsedConfig)
    (hd : allDiagnosticsOf eng o parsedConfig ≠ []) :
    tryBody eng o =
      ([Event.createProgram (rootNamesOf o parsedConfig) (finalOptionsOf eng o parsedConfig),
        Event.emit (programOf eng o parsedConfig).emitResult.artifacts] ++
         (allDiagnosticsOf eng o parsedConfig).map
           (fun d => Event.logError ("TypeScript Error: " ++ eng.flattenDiagnosticMessageText d)),
       Except.error ("TypeScript compilation failed: " ++ diagnosticMessagesOf eng o parsedConfig)) := by
  unfold tryBody
  rw [hload]
  simp [List.length_pos, hd]

/-- Reduction of execute when the configuration loads and the run has no
diagnostics. -/
theorem execute_of_no_diags (eng : Engine) (o : TypeScriptCompilerActionOptions)
    (parsedConfig : ParsedCommandLine)
    (hload : loadAndParseTsConfig eng (resolvedPathOf eng o) = Except.ok parsedConfig)
    (hd : allDiagnosticsOf eng o parsedConfig = []) :
    execute eng o =
      ([startEventOf eng o,
        Event.createProgram (rootNamesOf o parsedConfig) (finalOptionsOf eng o parsedConfig),
        Event.emit (programOf eng o parsedConfig).emitResult.artifacts,
        Event.info "TypeScript compilation completed successfully."],
       Except.ok ()) := by
  unfold execute
  rw [tryBody_ok_of_no_diags eng o parsedConfig hload hd]

/-- Reduction of execute when the configuration loads and the run has at
least one diagnostic. -/
theorem execute_of_diags (eng : Engine) (o : TypeScriptCompilerActionOptions)
    (parsedConfig : ParsedCommandLine)
    (hload : loadAndParseTsConfig eng (resolvedPathOf eng o) = Except.ok parsedConfig)
    (hd : allDiagnosticsOf eng o parsedConfig ≠ []) :
    execute eng o =
      (startEventOf eng o ::
        (Event.createProgram (rootNamesOf o parsedConfig) (finalOptionsOf eng o parsedConfig) ::
          Event.emit (programOf eng o parsedConfig).emitResult.artifacts ::
            (allDiagnosticsOf eng o parsedConfig).map
              (fun d => Event.logError ("TypeScript Error: " ++ eng.flattenDiagnosticMessageText d))) ++
        [Event.logErrorCause "Error during TypeScript compilation:"
          ("TypeScript compilation failed: " ++ diagnosticMessagesOf eng o parsedConfig)],
       Except.error ("TypeScript compilation failed: " ++
         ("TypeScript compilation failed: " ++ diagnosticMessagesOf eng o parsedConfig))) := by
  unfold execute
  rw [tryBody_error_of_diags eng o parsedConfig hload hd]
  rfl

/-- Reduction of execute when loading the configuration fails. -/
theorem execute_of_load_error (eng : Engine) (o : TypeScriptCompilerActionOptions)
    (m : String)
    (hload : loadAndParseTsConfig eng (resolvedPathOf eng o) = Except.error m) :
    execute eng o =
      ([startEventOf eng o, Event.logErrorCause "Error during TypeScript compilation:" m],
       Except.error ("TypeScript compilation failed: " ++ m)) := by
  unfold execute tryBody
  rw [hload]
  rfl

/-- Filtering a trace of per-diagnostic logError events for logError
events keeps all of them. -/
theorem filter_logError_map (l : List Diag) (f : Diag → String) :
    (l.map (fun d => Event.logError (f d))).filter isLogErrorEvent =
      l.map (fun d => Event.logError (f d)) := by
  induction l with
  | nil => rfl
  | cons d rest ih => simp [isLogErrorEvent, ih]

/-- No per-diagnostic logError event in a trace of such events is an
info, emit, createProgram or two-argument logError event. -/
theorem filter_other_map (l : List Diag) (f : Diag → String) (p : Event → Bool)
    (hp : ∀ s, p (Event.logError s) = false) :
    (l.map (fun d => Event.logError (f d))).filter p = [] := by
  induction l with
  | nil => rfl
  | cons d rest ih => simp [hp, ih]

/-- A fixed concrete compiler engine, parameterised by the pure results
of each external call. -/
def mkEngine (readResult : Except Diag String) (parsed : ParsedCommandLine)
    (conv : ConvertResult) (prog : ProgramModel) : Engine where
  resolvePath := fun p => "/abs/" ++ p
  dirname := fun _ => "/abs"
  readConfigFile := fun _ => readResult
  parseJsonConfigFileContent := fun _ _ => parsed
  convertCompilerOptionsFromJson := fun _ _ => conv
  createProgram := fun _ _ => prog
  flattenDiagnosticMessageText := fun d => d.messageText

/-- A representative parsed configuration. -/
def parsedSample : ParsedCommandLine :=
  ⟨[("target", OptVal.str "ES2020"), ("outDir", OptVal.str "./dist")], ["src/test.ts"], []⟩

/-- An invocation with every option left out. -/
def optsPlain : TypeScriptCompilerActionOptions := ⟨none, none, none, none⟩

/-- An engine whose run is clean: configuration loads, no diagnostics,
one artifact written. -/
def engineOk : Engine :=
  mkEngine (Except.ok "config") parsedSample ⟨[], []⟩ ⟨[], ⟨[], ["dist/test.js"]⟩⟩

/-- An engine whose run yields one pre-emit diagnostic (alpha) and one
emit diagnostic (beta). -/
def engineTwoDiags : Engine :=
  mkEngine (Except.ok "config") parsedSample ⟨[], []⟩ ⟨[⟨"alpha"⟩], ⟨[⟨"beta"⟩], []⟩⟩

/-- An engine whose configuration file cannot be read. -/
def engineReadFails : Engine :=
  mkEngine (Except.error ⟨"File not found"⟩) parsedSample ⟨[], []⟩ ⟨[], ⟨[], []⟩⟩

/-- An engine whose configuration sets outDir, with a clean run. -/
def engineBaseOut : Engine :=
  mkEngine (Except.ok "config")
    ⟨[("outDir", OptVal.str "fromBase")], ["a.ts"], []⟩ ⟨[], []⟩ ⟨[], ⟨[], []⟩⟩

/-- An engine whose option conversion rejects its input: it reports an
unknown-option error diagnostic and converts no options, as the real
engine does for an unrecognized option key; the run itself is clean. -/
def engineDropsUnknown : Engine :=
  mkEngine (Except.ok "config") parsedSample
    ⟨[], [⟨"Unknown compiler option deliberatelyMisspelledOption"⟩]⟩
    ⟨[], ⟨[], ["dist/test.js"]⟩⟩

/-- An invocation supplying an empty-string outputDir. -/
def optsEmptyOut : TypeScriptCompilerActionOptions := ⟨none, none, some "", none⟩

/-- An invocation supplying a misspelled compiler option key. -/
def optsMisspelled : TypeScriptCompilerActionOptions :=
  ⟨none, none, none, some [("deliberatelyMisspelledOption", OptVal.boolean true)]⟩

/-- An invocation supplying an explicit file list. -/
def optsWithFiles : TypeScriptCompilerActionOptions :=
  ⟨none, some ["only/this.ts"], none, none⟩

/-- The engine with the errors field of its option conversion replaced:
execute never reads that field, so this replacement is invisible. -/
def withConvertErrors (eng : Engine) (errs : List Diag) : Engine :=
  { eng with
    convertCompilerOptionsFromJson := fun ov d =>
      ConvertResult.mk (eng.convertCompilerOptionsFromJson ov d).options errs }

/-- C1 counterexample: an invocation supplying the outputLocation "" (a
supplied output directory) compiles with the outDir of the base
configuration, not with the supplied value, because the source guards
the assignment with the truthiness test `if (outputDir)`. -/
theorem c1_counterexample :
    optsEmptyOut.outputDir = some "" ∧
    programOptions (execute engineBaseOut optsEmptyOut).1 =
      some [("outDir", OptVal.str "fromBase")] ∧
    getKey [("outDir", OptVal.str "fromBase")] "outDir" ≠ some (OptVal.str "") := by
  decide

/-- C1 (amended): three-tier option precedence, with the one
qualification the counterexample forces.  For every key of the
(converted) override bag, the base-then-override spread carries the
override value, never the base value; keys other than outDir pass from
that spread unchanged into the effective options whatever outputDir is;
and whenever a supplied outputDir is non-empty, the effective outDir
equals it, overriding both the base and the overrides.  A supplied
empty-string outputDir is skipped by the truthiness guard. -/
theorem c1_option_precedence (B O : OptionsMap) (hO : (O.map Prod.fst).Nodup)
    (k : String) (v : OptVal) (loc : Option String) (d : String) :
    (getKey O k = some v → getKey (objectSpread B O) k = some v) ∧
    (k ≠ "outDir" → getKey (mergeEffective B O loc) k = getKey (objectSpread B O) k) ∧
    (loc = some d → d ≠ "" → getKey (mergeEffective B O loc) "outDir" = some (OptVal.str d)) := by
  refine ⟨fun h => getKey_objectSpread_right B O k v hO h, ?_, ?_⟩
  · intro hk
    cases loc with
    | none => rfl
    | some e =>
        unfold mergeEffective
        by_cases he : e = ""
        · simp [he]
        · simp [he, getKey_setKey_ne _ _ _ _ hk]
  · intro hl hd
    subst hl
    unfold mergeEffective
    simp [hd, getKey_setKey_self]

/-- C1 witness: the amended precedence at a concrete base, override and
output location. -/
theorem c1_witness :
    (getKey [("target", OptVal.str "ES5")] "target" = some (OptVal.str "ES5") →
       getKey (objectSpread [("target", OptVal.str "ES3"), ("outDir", OptVal.str "a")]
         [("target", OptVal.str "ES5")]) "target" = some (OptVal.str "ES5")) ∧
    ("target" ≠ "outDir" →
       getKey (mergeEffective [("target", OptVal.str "ES3"), ("outDir", OptVal.str "a")]
         [("target", OptVal.str "ES5")] (some "dist")) "target" =
       getKey (objectSpread [("target", OptVal.str "ES3"), ("outDir", OptVal.str "a")]
         [("target", OptVal.str "ES5")]) "target") ∧
    (some "dist" = some "dist" → "dist" ≠ "" →
       getKey (mergeEffective [("target", OptVal.str "ES3"), ("outDir", OptVal.str "a")]
         [("target", OptVal.str "ES5")] (some "dist")) "outDir" = some (OptVal.str "dist")) :=
  c1_option_precedence [("target", OptVal.str "ES3"), ("outDir", OptVal.str "a")]
    [("target", OptVal.str "ES5")] (by decide) "target" (OptVal.str "ES5") (some "dist") "dist"

/-- C2 counterexample: an invocation whose compilerOptions bag holds a
key the engine option grammar rejects (the conversion reports an error
diagnostic for it) nevertheless constructs the compilation unit and
resolves successfully: no failure of any kind is raised before
compilation. -/
theorem c2_counterexample :
    optsMisspelled.compilerOptions =
      some [("deliberatelyMisspelledOption", OptVal.boolean true)] ∧
    (engineDropsUnknown.convertCompilerOptionsFromJson
        [("deliberatelyMisspelledOption", OptVal.boolean true)] "/abs").errors ≠ [] ∧
    errMsg? (execute engineDropsUnknown optsMisspelled).2 = none ∧
    programCall (execute engineDropsUnknown optsMisspelled).1 ≠ none := by
  decide

/-- C2 (amended): override keys the option grammar rejects are silently
dropped, not fatal.  The error diagnostics of option conversion are
never read: replacing them changes nothing observable about execute;
and whenever the configuration loads, the compilation unit is
constructed, with the successfully converted options. -/
theorem c2_unknown_override_ignored (eng : Engine) (errs : List Diag)
    (o : TypeScriptCompilerActionOptions) (parsedConfig : ParsedCommandLine)
    (hload : loadAndParseTsConfig eng (resolvedPathOf eng o) = Except.ok parsedConfig) :
    execute (withConvertErrors eng errs) o = execute eng o ∧
    programCall (execute eng o).1 =
      some (rootNamesOf o parsedConfig, finalOptionsOf eng o parsedConfig) := by
  constructor
  · rfl
  · by_cases hd : allDiagnosticsOf eng o parsedConfig = []
    · rw [execute_of_no_diags eng o parsedConfig hload hd]
      rfl
    · rw [execute_of_diags eng o parsedConfig hload hd]
      rfl

/-- C2 witness: the amended behaviour at the concrete engine that
rejects the misspelled override key. -/
theorem c2_witness :
    execute (withConvertErrors engineDropsUnknown [Diag.mk "extra"]) optsMisspelled =
      execute engineDropsUnknown optsMisspelled ∧
    programCall (execute engineDropsUnknown optsMisspelled).1 =
      some (rootNamesOf optsMisspelled parsedSample,
            finalOptionsOf engineDropsUnknown optsMisspelled parsedSample) :=
  c2_unknown_override_ignored engineDropsUnknown [Diag.mk "extra"] optsMisspelled
    parsedSample rfl

/-- C3 counterexample: with one pre-emit diagnostic alpha and one emit
diagnostic beta, the rejection message joins the two flattened entries
with a single newline, not with the double newline the claim states. -/
theorem c3_counterexample :
    allDiagnosticsOf engineTwoDiags optsPlain parsedSample =
      [Diag.mk "alpha", Diag.mk "beta"] ∧
    errMsg? (execute engineTwoDiags optsPlain).2 =
      some "TypeScript compilation failed: TypeScript compilation failed: alpha\nbeta" ∧
    errMsg? (execute engineTwoDiags optsPlain).2 ≠
      some "TypeScript compilation failed: TypeScript compilation failed: alpha\n\nbeta" := by
  decide

/-- C3 (amended): every invocation that reaches compilation and has at
least one diagnostic rejects with the aggregated text: the flattened
text of every diagnostic, in pre-emission-then-emission order, none
omitted, joined with a single-newline separator between entries, under
the doubled failure prefix. -/
theorem c3_failure_reports_all_diagnostics (eng : Engine)
    (o : TypeScriptCompilerActionOptions) (parsedConfig : ParsedCommandLine)
    (hload : loadAndParseTsConfig eng (resolvedPathOf eng o) = Except.ok parsedConfig)
    (hd : allDiagnosticsOf eng o parsedConfig ≠ []) :
    (execute eng o).2 =
      Except.error ("TypeScript compilation failed: " ++
        ("TypeScript compilation failed: " ++
          String.intercalate "\n"
            ((allDiagnosticsOf eng o parsedConfig).map eng.flattenDiagnosticMessageText))) := by
  rw [execute_of_diags eng o parsedConfig hload hd]
  rfl

/-- C3 witness: the amended aggregation at the concrete two-diagnostic
engine. -/
theorem c3_witness :
    (execute engineTwoDiags optsPlain).2 =
      Except.error ("TypeScript compilation failed: " ++
        ("TypeScript compilation failed: " ++
          String.intercalate "\n"
            ((allDiagnosticsOf engineTwoDiags optsPlain parsedSample).map
              engineTwoDiags.flattenDiagnosticMessageText))) :=
  c3_failure_reports_all_diagnostics engineTwoDiags optsPlain parsedSample rfl (by decide)

/-- Per-diagnostic logError events are not info events. -/
theorem filter_isInfo_logError_map (l : List Diag) (f : Diag → String) :
    (l.map (fun d => Event.logError (f d))).filter isInfoEvent = [] :=
  filter_other_map l f isInfoEvent (fun _ => rfl)

/-- Per-diagnostic logError events are not emit events. -/
theorem filter_isEmit_logError_map (l : List Diag) (f : Diag → String) :
    (l.map (fun d => Event.logError (f d))).filter isEmitEvent = [] :=
  filter_other_map l f isEmitEvent (fun _ => rfl)

/-- Per-diagnostic logError events are not two-argument logError events. -/
theorem filter_isCause_logError_map (l : List Diag) (f : Diag → String) :
    (l.map (fun d => Event.logError (f d))).filter isLogErrorCauseEvent = [] :=
  filter_other_map l f isLogErrorCauseEvent (fun _ => rfl)

/-- C4: once compilation is reached, the outcome is Success exactly when
the concatenated pre-emission-then-emission diagnostic sequence is
empty; otherwise execute rejects, and the rejection carries every
flattened diagnostic in order, none dropped, deduplicated or
reordered. -/
theorem c4_success_iff_no_diagnostics (eng : Engine)
    (o : TypeScriptCompilerActionOptions) (parsedConfig : ParsedCommandLine)
    (hload : loadAndParseTsConfig eng (resolvedPathOf eng o) = Except.ok parsedConfig) :
    ((execute eng o).2 = Except.ok () ↔ allDiagnosticsOf eng o parsedConfig = []) ∧
    (allDiagnosticsOf eng o parsedConfig ≠ [] →
      (execute eng o).2 =
        Except.error ("TypeScript compilation failed: " ++
          ("TypeScript compilation failed: " ++
            String.intercalate "\n"
              ((allDiagnosticsOf eng o parsedConfig).map eng.flattenDiagnosticMessageText)))) := by
  by_cases hd : allDiagnosticsOf eng o parsedConfig = []
  · rw [execute_of_no_diags eng o parsedConfig hload hd]
    exact ⟨by simp [hd], fun hne => absurd hd hne⟩
  · rw [execute_of_diags eng o parsedConfig hload hd]
    refine ⟨⟨fun h => Except.noConfusion h, fun h => absurd h hd⟩, fun _ => rfl⟩

/-- C4 witness: the equivalence at the concrete clean engine. -/
theorem c4_witness :
    ((execute engineOk optsPlain).2 = Except.ok () ↔
      allDiagnosticsOf engineOk optsPlain parsedSample = []) ∧
    (allDiagnosticsOf engineOk optsPlain parsedSample ≠ [] →
      (execute engineOk optsPlain).2 =
        Except.error ("TypeScript compilation failed: " ++
          ("TypeScript compilation failed: " ++
            String.intercalate "\n"
              ((allDiagnosticsOf engineOk optsPlain parsedSample).map
                engineOk.flattenDiagnosticMessageText)))) :=
  c4_success_iff_no_diagnostics engineOk optsPlain parsedSample rfl

/-- C5: when loading the configuration file fails, execute rejects with
the wrapped stage message and the trace holds only the opening logInfo
and the catch logError: no compilation unit is constructed and no
emission is requested. -/
theorem c5_load_failure_short_circuits (eng : Engine)
    (o : TypeScriptCompilerActionOptions) (m : String)
    (hload : loadAndParseTsConfig eng (resolvedPathOf eng o) = Except.error m) :
    execute eng o =
      ([startEventOf eng o, Event.logErrorCause "Error during TypeScript compilation:" m],
       Except.error ("TypeScript compilation failed: " ++ m)) ∧
    programCall (execute eng o).1 = none ∧
    (execute eng o).1.filter isEmitEvent = [] := by
  have h := execute_of_load_error eng o m hload
  refine ⟨h, ?_, ?_⟩
  · rw [h]
    rfl
  · rw [h]
    rfl

/-- C5 witness: the short circuit at the concrete engine whose
configuration file is missing. -/
theorem c5_witness :
    execute engineReadFails optsPlain =
      ([startEventOf engineReadFails optsPlain,
        Event.logErrorCause "Error during TypeScript compilation:"
          "Error reading tsconfig.json: File not found"],
       Except.error ("TypeScript compilation failed: " ++
         "Error reading tsconfig.json: File not found")) ∧
    programCall (execute engineReadFails optsPlain).1 = none ∧
    (execute engineReadFails optsPlain).1.filter isEmitEvent = [] :=
  c5_load_failure_short_circuits engineReadFails optsPlain
    "Error reading tsconfig.json: File not found" rfl

/-- C6: the compilation unit is constructed from exactly the supplied
filePaths when that override is present (the configuration list is
unused) and from exactly the resolved configuration list when it is
absent; no appending or merging. -/
theorem c6_exact_file_list_replacement (eng : Engine)
    (o : TypeScriptCompilerActionOptions) (parsedConfig : ParsedCommandLine)
    (hload : loadAndParseTsConfig eng (resolvedPathOf eng o) = Except.ok parsedConfig) :
    programCall (execute eng o).1 =
      some (rootNamesOf o parsedConfig, finalOptionsOf eng o parsedConfig) ∧
    (∀ l, o.filePaths = some l → rootNamesOf o parsedConfig = l) ∧
    (o.filePaths = none → rootNamesOf o parsedConfig = parsedConfig.fileNames) := by
  refine ⟨?_, ?_, ?_⟩
  · by_cases hd : allDiagnosticsOf eng o parsedConfig = []
    · rw [execute_of_no_diags eng o parsedConfig hload hd]
      rfl
    · rw [execute_of_diags eng o parsedConfig hload hd]
      rfl
  · intro l hl
    simp [rootNamesOf, hl]
  · intro hl
    simp [rootNamesOf, hl]

/-- C6 witness: the exact replacement at a concrete invocation
supplying an explicit file list. -/
theorem c6_witness :
    programCall (execute engineOk optsWithFiles).1 =
      some (rootNamesOf optsWithFiles parsedSample,
            finalOptionsOf engineOk optsWithFiles parsedSample) ∧
    (∀ l, optsWithFiles.filePaths = some l →
      rootNamesOf optsWithFiles parsedSample = l) ∧
    (optsWithFiles.filePaths = none →
      rootNamesOf optsWithFiles parsedSample = parsedSample.fileNames) :=
  c6_exact_file_list_replacement engineOk optsWithFiles parsedSample rfl

/-- C7: logging contract.  The trace opens with the single logInfo
naming the resolved configuration path; the info events are exactly
that opening event plus, exactly on success, the one completion event;
and the one-argument logError events are exactly one per diagnostic, in
diagnostic order.  (In this embedding the log is a pure output of
execute, so logging cannot influence the returned outcome.) -/
theorem c7_logging_contract (eng : Engine) (o : TypeScriptCompilerActionOptions)
    (parsedConfig : ParsedCommandLine)
    (hload : loadAndParseTsConfig eng (resolvedPathOf eng o) = Except.ok parsedConfig) :
    (execute eng o).1.head? = some (startEventOf eng o) ∧
    ((execute eng o).1.filter isInfoEvent =
      if allDiagnosticsOf eng o parsedConfig = [] then
        [startEventOf eng o, Event.info "TypeScript compilation completed successfully."]
      else [startEventOf eng o]) ∧
    ((execute eng o).1.filter isLogErrorEvent =
      (allDiagnosticsOf eng o parsedConfig).map
        (fun d => Event.logError ("TypeScript Error: " ++ eng.flattenDiagnosticMessageText d))) := by
  by_cases hd : allDiagnosticsOf eng o parsedConfig = []
  · rw [execute_of_no_diags eng o parsedConfig hload hd]
    refine ⟨rfl, ?_, ?_⟩
    · rw [if_pos hd]
      rfl
    · rw [hd]
      rfl
  · rw [execute_of_diags eng o parsedConfig hload hd]
    refine ⟨rfl, ?_, ?_⟩
    · rw [if_neg hd]
      simp [startEventOf, isInfoEvent, List.filter_append, filter_isInfo_logError_map]
    · simp [startEventOf, isLogErrorEvent, List.filter_append, filter_logError_map]

/-- C7 witness: the logging contract at the concrete two-diagnostic
engine. -/
theorem c7_witness :
    (execute engineTwoDiags optsPlain).1.head? =
      some (startEventOf engineTwoDiags optsPlain) ∧
    ((execute engineTwoDiags optsPlain).1.filter isInfoEvent =
      if allDiagnosticsOf engineTwoDiags optsPlain parsedSample = [] then
        [startEventOf engineTwoDiags optsPlain,
         Event.info "TypeScript compilation completed successfully."]
      else [startEventOf engineTwoDiags optsPlain]) ∧
    ((execute engineTwoDiags optsPlain).1.filter isLogErrorEvent =
      (allDiagnosticsOf engineTwoDiags optsPlain parsedSample).map
        (fun d => Event.logError
          ("TypeScript Error: " ++ engineTwoDiags.flattenDiagnosticMessageText d))) :=
  c7_logging_contract engineTwoDiags optsPlain parsedSample rfl

/-- Whenever the configuration loads, the recorded createProgram call
carries the final merged options. -/
theorem programOptions_execute (eng : Engine) (o : TypeScriptCompilerActionOptions)
    (parsedConfig : ParsedCommandLine)
    (hload : loadAndParseTsConfig eng (resolvedPathOf eng o) = Except.ok parsedConfig) :
    programOptions (execute eng o).1 = some (finalOptionsOf eng o parsedConfig) := by
  by_cases hd : allDiagnosticsOf eng o parsedConfig = []
  · rw [execute_of_no_diags eng o parsedConfig hload hd]
    rfl
  · rw [execute_of_diags eng o parsedConfig hload hd]
    rfl

/-- C8: merging with an empty override bag and no outputDir is the
identity: the effective options equal the resolved options of the
configuration file, and those are the options the compilation unit is
constructed with.  The engine-interface hypothesis states that the
conversion of the empty override bag converts to the empty bag, as the
real engine does. -/
theorem c8_empty_overrides_identity (eng : Engine)
    (o : TypeScriptCompilerActionOptions) (parsedConfig : ParsedCommandLine)
    (hconv : (eng.convertCompilerOptionsFromJson []
        (eng.dirname (resolvedPathOf eng o))).options = [])
    (hco : o.compilerOptions.getD [] = [])
    (hout : o.outputDir = none)
    (hload : loadAndParseTsConfig eng (resolvedPathOf eng o) = Except.ok parsedConfig) :
    finalOptionsOf eng o parsedConfig = parsedConfig.options ∧
    programOptions (execute eng o).1 = some parsedConfig.options := by
  have hfo : finalOptionsOf eng o parsedConfig = parsedConfig.options := by
    unfold finalOptionsOf
    rw [hco, hconv, hout]
    rfl
  refine ⟨hfo, ?_⟩
  rw [programOptions_execute eng o parsedConfig hload, hfo]

/-- C8 witness: the identity merge at the concrete clean engine with no
overrides. -/
theorem c8_witness :
    finalOptionsOf engineOk optsPlain parsedSample = parsedSample.options ∧
    programOptions (execute engineOk optsPlain).1 = some parsedSample.options :=
  c8_empty_overrides_identity engineOk optsPlain parsedSample rfl rfl rfl rfl

/-- C9: emission is not gated on analysis: whenever the configuration
loads, the trace holds exactly one emit event, carrying the artifacts
the engine wrote, and that event sits right after the createProgram
event and before every diagnostic log and the failure, whatever the
diagnostics are: a run that fails on pre-emission diagnostics has still
requested emission. -/
theorem c9_emission_unconditional (eng : Engine)
    (o : TypeScriptCompilerActionOptions) (parsedConfig : ParsedCommandLine)
    (hload : loadAndParseTsConfig eng (resolvedPathOf eng o) = Except.ok parsedConfig) :
    ((execute eng o).1.filter isEmitEvent =
      [Event.emit (programOf eng o parsedConfig).emitResult.artifacts]) ∧
    ((execute eng o).1.take 3 =
      [startEventOf eng o,
       Event.createProgram (rootNamesOf o parsedConfig) (finalOptionsOf eng o parsedConfig),
       Event.emit (programOf eng o parsedConfig).emitResult.artifacts]) := by
  by_cases hd : allDiagnosticsOf eng o parsedConfig = []
  · rw [execute_of_no_diags eng o parsedConfig hload hd]
    exact ⟨rfl, rfl⟩
  · rw [execute_of_diags eng o parsedConfig hload hd]
    refine ⟨?_, rfl⟩
    simp [startEventOf, isEmitEvent, List.filter_append, filter_isEmit_logError_map]

/-- C9 witness: emission requested despite both diagnostics at the
concrete two-diagnostic engine. -/
theorem c9_witness :
    ((execute engineTwoDiags optsPlain).1.filter isEmitEvent =
      [Event.emit (programOf engineTwoDiags optsPlain parsedSample).emitResult.artifacts]) ∧
    ((execute engineTwoDiags optsPlain).1.take 3 =
      [startEventOf engineTwoDiags optsPlain,
       Event.createProgram (rootNamesOf optsPlain parsedSample)
         (finalOptionsOf engineTwoDiags optsPlain parsedSample),
       Event.emit (programOf engineTwoDiags optsPlain parsedSample).emitResult.artifacts]) :=
  c9_emission_unconditional engineTwoDiags optsPlain parsedSample rfl

/-- C10: every rejection of execute carries the prefix, the diagnostic
failure carries it twice (the inner throw is re-wrapped by the catch of
the method itself), and the catch emits exactly one additional
two-argument logError event beyond the per-diagnostic ones. -/
theorem c10_double_wrapped_failure (eng : Engine)
    (o : TypeScriptCompilerActionOptions) (parsedConfig : ParsedCommandLine)
    (hload : loadAndParseTsConfig eng (resolvedPathOf eng o) = Except.ok parsedConfig)
    (hd : allDiagnosticsOf eng o parsedConfig ≠ []) :
    (∀ e q, (execute e q).2 ≠ Except.ok () →
       ∃ s, (execute e q).2 = Except.error ("TypeScript compilation failed: " ++ s)) ∧
    (execute eng o).2 =
      Except.error ("TypeScript compilation failed: " ++
        ("TypeScript compilation failed: " ++ diagnosticMessagesOf eng o parsedConfig)) ∧
    (execute eng o).1.filter isLogErrorCauseEvent =
      [Event.logErrorCause "Error during TypeScript compilation:"
        ("TypeScript compilation failed: " ++ diagnosticMessagesOf eng o parsedConfig)] := by
  refine ⟨?_, ?_, ?_⟩
  · intro e q hne
    cases htb : tryBody e q with
    | mk evs r =>
        cases r with
        | ok u =>
            cases u
            exact absurd (by unfold execute; rw [htb]) hne
        | error msg =>
            refine ⟨msg, ?_⟩
            unfold execute
            rw [htb]
  · rw [execute_of_diags eng o parsedConfig hload hd]
  · rw [execute_of_diags eng o parsedConfig hload hd]
    simp [startEventOf, isLogErrorCauseEvent, List.filter_append, filter_isCause_logError_map]

/-- C10 witness: the doubled prefix and the extra catch log at the
concrete two-diagnostic engine. -/
theorem c10_witness :
    (∀ e q, (execute e q).2 ≠ Except.ok () →
       ∃ s, (execute e q).2 = Except.error ("TypeScript compilation failed: " ++ s)) ∧
    (execute engineTwoDiags optsPlain).2 =
      Except.error ("TypeScript compilation failed: " ++
        ("TypeScript compilation failed: " ++
          diagnosticMessagesOf engineTwoDiags optsPlain parsedSample)) ∧
    (execute engineTwoDiags optsPlain).1.filter isLogErrorCauseEvent =
      [Event.logErrorCause "Error during TypeScript compilation:"
        ("TypeScript compilation failed: " ++
          diagnosticMessagesOf engineTwoDiags optsPlain parsedSample)] :=
  c10_double_wrapped_failure engineTwoDiags optsPlain parsedSample rfl (by decide)

end KistTs
